import Mathlib

/-!
# Verification of the onedotzero cluster orchestrator

A shallow embedding of `scripts/cluster.py` (the current orchestrator) and,
where a claim refers to it, the legacy `cluster.py`.  External subprocesses
(remote shells, the configuration-job runner, pings) are modelled by
`ProcResult` values supplied by an environment; each orchestration function
is a pure Lean function of the hardware configuration and those results,
returning its outcome together with a list of observable events (commands
dispatched, sleeps, log/print lines) in program order.
-/

namespace ODZ

/-- `REMOTE_DIR` from `scripts/cluster.py`. -/
def REMOTE_DIR : String := "~/remote/onedotzero"

/-- `DYN_INVENTORY_RELATIVE_PATH` from `scripts/cluster.py`. -/
def DYN_INVENTORY_RELATIVE_PATH : String := "ansible/inventory.dyn"

/-- Result of one external process (`subprocess.run`): exit code and captured
output streams. -/
structure ProcResult where
  returncode : Int
  stdout : String
  stderr : String
deriving DecidableEq, Repr

/-- `subprocess.CalledProcessError` as raised by `run_command`. -/
structure CalledProcessError where
  returncode : Int
  cmd : String
  output : String
  stderr : String
deriving DecidableEq, Repr

/-- One piece of a jinja2 address template: literal text or a variable
reference `{{ v }}`. -/
inductive TPiece
  | lit (s : String)
  | var (v : String)
deriving DecidableEq, Repr

/-- One entry of the `compute_nodes` list of a hardware-vars file:
`name`, `ip` (a jinja2 template) and `mac`. -/
structure ComputeNode where
  name : String
  ip : List TPiece
  mac : String
deriving DecidableEq, Repr

/-- The loaded hardware configuration (`HARDWARE_CONFIG`): optional
`control_host` override and the `compute_nodes` list. -/
structure HardwareConfig where
  control_host : Option String
  compute_nodes : List ComputeNode
deriving DecidableEq, Repr

/-- Node status strings used by the prober: `"UP"` / `"DOWN"`. -/
inductive Status
  | UP
  | DOWN
deriving DecidableEq, Repr

/-- Observable events emitted by the orchestration functions, in program
order: an external command dispatch (`run_command` with its operation-level
command string), a `time.sleep`, or a log/print line. -/
inductive Event
  | run (cmd : String)
  | sleepSec (n : Nat)
  | msg (s : String)
deriving DecidableEq, Repr

/-- A fatal outcome: an uncaught `CalledProcessError`, a `sys.exit(code)`,
or an uncaught `IndexError` (from `line.split` indexing). -/
inductive Fatal
  | cmdFailed (e : CalledProcessError)
  | exited (code : Int)
  | indexError
deriving DecidableEq, Repr

/-- Python dict assignment `m[k] = v` viewed as an association list update
(overwrite existing key, else append; dicts keep insertion order). -/
def updateAssoc {β : Type} (m : List (String × β)) (k : String) (v : β) :
    List (String × β) :=
  match m with
  | [] => [(k, v)]
  | (k0, v0) :: rest =>
      if k0 = k then (k0, v) :: rest else (k0, v0) :: updateAssoc rest k v

/-- Python dict lookup `m[k]` / `m.get(k)`. -/
def lookupA {β : Type} (m : List (String × β)) (k : String) : Option β :=
  match m with
  | [] => none
  | (k0, v0) :: rest => if k0 = k then some v0 else lookupA rest k

/-- Splitting a character list at every character satisfying `p`
(the semantics of Python `str.split(sep)` for a one-character separator,
keeping empty fields). -/
def splitWhen (p : Char → Bool) : List Char → List (List Char)
  | [] => [[]]
  | c :: rest =>
    let r := splitWhen p rest
    if p c then [] :: r
    else
      match r with
      | [] => [[c]]
      | g :: gs => (c :: g) :: gs

/-- Python `str.split()` with no argument: split on whitespace and drop
empty tokens. -/
def pySplit (s : String) : List String :=
  ((splitWhen (fun c => c.isWhitespace) s.toList).map
    (fun l => String.mk l)).filter (fun t => t ≠ "")

/-- Line splitting (`str.splitlines()` / `str.split("\n")`).  Carriage
returns left at line ends are whitespace, so the token-level functions below
treat them as separators just as Python does. -/
def pyLines (s : String) : List String :=
  (splitWhen (fun c => c = '\n') s.toList).map (fun l => String.mk l)

/-- Python `line.split(sep)` for the one-character separator `'"'`. -/
def pySplitQuote (s : String) : List String :=
  (splitWhen (fun c => c = '"') s.toList).map (fun l => String.mk l)

/-- Substring occurrence on character lists. -/
def containsSub (needle : List Char) : List Char → Bool
  | [] => needle.isEmpty
  | c :: rest => needle.isPrefixOf (c :: rest) || containsSub needle rest

/-- Python `marker in line` (substring test). -/
def pyContains (line marker : String) : Bool :=
  containsSub marker.toList line.toList

/-- The suffix after the first occurrence of `needle`, if any. -/
def afterFirst (needle : List Char) : List Char → Option (List Char)
  | [] => if needle.isEmpty then some [] else none
  | c :: rest =>
      if needle.isPrefixOf (c :: rest) then
        some (List.drop needle.length (c :: rest))
      else afterFirst needle rest

/-- Python `str.replace(old, new)` for a one-character pattern. -/
def replaceChar (old : Char) (new : List Char) : List Char → List Char
  | [] => []
  | c :: rest => (if c = old then new else [c]) ++ replaceChar old new rest

/-- `run_command` from `scripts/cluster.py`: wraps the command for the
remote control host (quoting single quotes and prefixing the `ssh ... cd`
preamble) and, when `check` is set and the process exited non-zero, raises
`CalledProcessError` carrying the exit code, the executed command and both
captured streams.  The actual subprocess outcome is the input `proc`.
(The `remote_host_override` parameter, used only by the ansible-test verbs,
is not exercised by any claim and is omitted; `capture_output` and
`suppress_errors` only affect logging.) -/
def run_command (cfg : HardwareConfig) (command : String) (remote : Bool)
    (check : Bool) (proc : ProcResult) : Except CalledProcessError ProcResult :=
  let remote_host := cfg.control_host.getD "control"
  let cmd_to_run :=
    if remote then
      "ssh " ++ remote_host ++ " \x27cd " ++ REMOTE_DIR ++ " && " ++
        String.mk (replaceChar '\x27' ("\x27\\\x27\x27".toList) command.toList)
        ++ "\x27"
    else command
  if check ∧ proc.returncode ≠ 0 then
    .error ⟨proc.returncode, cmd_to_run, proc.stdout, proc.stderr⟩
  else .ok proc

/-- The batched status-probe command built by
`get_all_compute_node_statuses`. -/
def statusCmd (inventory_file : String) : String :=
  "ansible compute -i " ++ inventory_file ++ " -m ping -o --timeout 3"

/-- `get_all_compute_node_statuses` from `scripts/cluster.py`: runs the
batched ping with `check=False` (so a non-zero exit of the probe process
never raises), initialises every configured node to `DOWN`, then walks the
stdout lines and marks `parts[0]` `UP` for every line whose third
whitespace token is `SUCCESS`.  Returns the status dict together with the
probe dispatch event. -/
def get_all_compute_node_statuses (cfg : HardwareConfig)
    (inventory_file : String) (proc : ProcResult) :
    List (String × Status) × List Event :=
  let command := statusCmd inventory_file
  -- run_command(..., check=False) never raises; the probe result is `proc`.
  let statuses := cfg.compute_nodes.foldl
    (fun m node => updateAssoc m node.name Status.DOWN) []
  let statuses := (pyLines proc.stdout).foldl
    (fun m line =>
      match pySplit line with
      | p0 :: _ :: p2 :: _ =>
          if p2 = "SUCCESS" then updateAssoc m p0 Status.UP else m
      | _ => m) statuses
  (statuses, [Event.run command])

/-- The status dict produced by the batched prober (first component of
`get_all_compute_node_statuses` at the inventory path all operations use). -/
def statusesOf (cfg : HardwareConfig) (proc : ProcResult) :
    List (String × Status) :=
  (get_all_compute_node_statuses cfg DYN_INVENTORY_RELATIVE_PATH proc).1

/-- The node names that the probe output explicitly reports successful:
first whitespace token of every line whose third token is `SUCCESS`. -/
def successNames (stdout : String) : List String :=
  (pyLines stdout).filterMap (fun line =>
    match pySplit line with
    | p0 :: _ :: p2 :: _ => if p2 = "SUCCESS" then some p0 else none
    | _ => none)

/-- `os.path.join("ansible/inventory", version, "hosts.ini")` as used by the
control/broadcast operations. -/
def inventory_path (hv : String) : String :=
  "ansible/inventory/" ++ hv ++ "/hosts.ini"

/-- The shutdown command of `compute_down`. -/
def shutdownCmd : String :=
  "ansible compute -i " ++ DYN_INVENTORY_RELATIVE_PATH ++
    " -m shell -a \"shutdown now\" --become"

/-- The reboot command of `compute_restart`. -/
def rebootCmd : String :=
  "ansible compute -i " ++ DYN_INVENTORY_RELATIVE_PATH ++
    " -m shell -a \"shutdown -r now\" --become"

/-- The configuration-job command of `compute_configure`. -/
def computeConfigureCmd (hv : String) : String :=
  "ansible-playbook -i " ++ DYN_INVENTORY_RELATIVE_PATH ++
    " ansible/compute_configure.yml --extra-vars \x27hardware_version=" ++
    hv ++ "\x27 --become"

/-- The configuration-job command of `control_configure`. -/
def controlConfigureCmd (hv : String) : String :=
  "ansible-playbook -i " ++ inventory_path hv ++
    " ansible/control_configure.yml --extra-vars \x27hardware_version=" ++
    hv ++ "\x27 --become"

/-- The image-build command of `control_build_image`. -/
def buildImageCmd (hv : String) : String :=
  "sudo -E ansible-playbook -i " ++ inventory_path hv ++
    " ansible/build_image.yml --extra-vars \x27hardware_version=" ++
    hv ++ "\x27 --become"

/-- The ownership-fix command run after the image build. -/
def chownCmd : String := "sudo chown -R $USER:$USER $HOME/.ansible"

/-- The broadcast-discovery command of `get_broadcast_address`. -/
def getBroadcastCmd (hv : String) : String :=
  "ansible-playbook ansible/get_broadcast.yml -i " ++ inventory_path hv ++
    " --extra-vars \x27hardware_version=" ++ hv ++ "\x27"

/-- The Wake-on-LAN command of `compute_up`. -/
def wolCmd (hv broadcast : String) : String :=
  "ansible-playbook ansible/wol_up.yml -i " ++ inventory_path hv ++
    " --extra-vars \x27\x7b\"hardware_version\": \"" ++ hv ++
    "\", \"broadcast_address\": \"" ++ broadcast ++ "\"\x7d\x27"

/-- `compute_down` from `scripts/cluster.py`: dispatches the privileged
shutdown, and treats a raised `CalledProcessError` as the expected loss of
the SSH connection — it is caught and logged, never propagated, so the
operation always completes. -/
def compute_down (cfg : HardwareConfig) (remote : Bool) (proc : ProcResult) :
    Except Fatal Unit × List Event :=
  match run_command cfg shutdownCmd remote true proc with
  | .ok _ => (.ok (), [Event.run shutdownCmd])
  | .error e =>
      (.ok (), [Event.run shutdownCmd,
        Event.msg ("SSH connection failed during shutdown, which is expected: "
          ++ toString e.returncode)])

/-- `compute_restart` from `scripts/cluster.py`: same expected-failure
tolerance as `compute_down`, with the reboot command. -/
def compute_restart (cfg : HardwareConfig) (remote : Bool)
    (proc : ProcResult) : Except Fatal Unit × List Event :=
  match run_command cfg rebootCmd remote true proc with
  | .ok _ => (.ok (), [Event.run rebootCmd])
  | .error e =>
      (.ok (), [Event.run rebootCmd,
        Event.msg ("SSH connection failed during reboot, which is expected: "
          ++ toString e.returncode)])

/-- `compute_configure` from `scripts/cluster.py`: runs the external
compute-configuration job with `check=True`; it performs no reachability
check of its own, and a non-zero job exit propagates as a fatal
`CalledProcessError`. -/
def compute_configure (cfg : HardwareConfig) (hv : String) (remote : Bool)
    (proc : ProcResult) : Except Fatal Unit × List Event :=
  match run_command cfg (computeConfigureCmd hv) remote true proc with
  | .error e => (.error (.cmdFailed e), [Event.run (computeConfigureCmd hv)])
  | .ok _ => (.ok (), [Event.run (computeConfigureCmd hv)])

/-- `control_configure` from `scripts/cluster.py`. -/
def control_configure (cfg : HardwareConfig) (hv : String) (remote : Bool)
    (proc : ProcResult) : Except Fatal Unit × List Event :=
  match run_command cfg (controlConfigureCmd hv) remote true proc with
  | .error e => (.error (.cmdFailed e), [Event.run (controlConfigureCmd hv)])
  | .ok _ => (.ok (), [Event.run (controlConfigureCmd hv)])

/-- `control_build_image` from `scripts/cluster.py`: the image build
followed by the `.ansible` ownership fix, both with `check=True`. -/
def control_build_image (cfg : HardwareConfig) (hv : String) (remote : Bool)
    (buildProc chownProc : ProcResult) : Except Fatal Unit × List Event :=
  match run_command cfg (buildImageCmd hv) remote true buildProc with
  | .error e => (.error (.cmdFailed e), [Event.run (buildImageCmd hv)])
  | .ok _ =>
      match run_command cfg chownCmd remote true chownProc with
      | .error e =>
          (.error (.cmdFailed e),
            [Event.run (buildImageCmd hv), Event.run chownCmd])
      | .ok _ => (.ok (), [Event.run (buildImageCmd hv), Event.run chownCmd])

/-- `get_broadcast_address` from `scripts/cluster.py`: runs the external
broadcast-discovery job; on its failure logs and exits 1.  Otherwise scans
the stdout lines for the first one containing `"msg":` and returns
`line.split('"')[3]`; a marker line with fewer than four quote-split fields
raises an uncaught `IndexError`; no marker line at all logs an error and
exits 1 (the `BroadcastParseError` of the spec). -/
def get_broadcast_address (cfg : HardwareConfig) (hv : String)
    (remote : Bool) (proc : ProcResult) : Except Fatal String × List Event :=
  match run_command cfg (getBroadcastCmd hv) remote true proc with
  | .error _ =>
      (.error (.exited 1),
        [Event.run (getBroadcastCmd hv),
         Event.msg "Failed to get broadcast address"])
  | .ok p =>
      match (pyLines p.stdout).find? (fun line => pyContains line "\"msg\":") with
      | some line =>
          match (pySplitQuote line).get? 3 with
          | some broadcast => (.ok broadcast, [Event.run (getBroadcastCmd hv)])
          | none => (.error .indexError, [Event.run (getBroadcastCmd hv)])
      | none =>
          (.error (.exited 1),
            [Event.run (getBroadcastCmd hv),
             Event.msg "Could not parse broadcast address from ansible output."])

/-- `all(status == "UP" for status in all_statuses.values())`: the
termination test of `compute_wait`, over a fresh batched probe. -/
def allUpStatuses (cfg : HardwareConfig) (proc : ProcResult) : Bool :=
  (statusesOf cfg proc).all (fun p => p.2 = Status.UP)

/-- `[name for name, status in all_statuses.items() if status == "DOWN"]`:
the still-unreachable node names of one probe. -/
def downNames (m : List (String × Status)) : List String :=
  (m.filter (fun p => p.2 = Status.DOWN)).map (fun p => p.1)

/-- The per-attempt diagnostic `compute_wait` prints when attempt `i`
(0-based) fails, naming every still-`DOWN` node of that probe. -/
def waitAttemptDiag (cfg : HardwareConfig) (proc : ProcResult) (i : Nat) :
    String :=
  "Attempt " ++ Nat.repr (i + 1) ++ "/100 failed. Waiting for: " ++
    String.intercalate ", " (downNames (statusesOf cfg proc)) ++
    ". Retrying in 1 second..."

/-- The loop body of `compute_wait` (`for i in range(100)`), fuelled by the
remaining attempt count: each attempt issues one batched probe
(`get_all_compute_node_statuses`, whose status dict is `statusesOf` and
whose single event is the probe dispatch); if every status value is `UP`
it prints and returns 0; otherwise it prints the attempt diagnostic naming
the still-`DOWN` nodes and sleeps 1 second.  Exhaustion logs an error and
terminates via `sys.exit(1)`. -/
def compute_wait_go (cfg : HardwareConfig) (env : Nat → ProcResult) :
    Nat → Nat → Except Fatal Unit × List Event
  | _, 0 =>
      (.error (.exited 1),
        [Event.msg "Not all compute nodes were reachable after 100 attempts."])
  | i, r + 1 =>
      if allUpStatuses cfg (env i) then
        (.ok (), [Event.run (statusCmd DYN_INVENTORY_RELATIVE_PATH),
          Event.msg "All compute nodes are reachable."])
      else
        ((compute_wait_go cfg env (i + 1) r).1,
          [Event.run (statusCmd DYN_INVENTORY_RELATIVE_PATH),
           Event.msg (waitAttemptDiag cfg (env i) i), Event.sleepSec 1] ++
            (compute_wait_go cfg env (i + 1) r).2)

/-- `compute_wait` from `scripts/cluster.py`: with no configured compute
nodes it warns and returns 0 without probing; otherwise it runs the
100-attempt probe loop. -/
def compute_wait (cfg : HardwareConfig) (env : Nat → ProcResult) :
    Except Fatal Unit × List Event :=
  if cfg.compute_nodes = [] then
    (.ok (), [Event.msg "No compute nodes defined in hardware config."])
  else compute_wait_go cfg env 0 100

/-- `compute_up` from `scripts/cluster.py`: with no hardware addresses it
warns and returns; otherwise it resolves the broadcast address, dispatches
the Wake-on-LAN job (`check=True`, fatal on failure), then waits for
reachability via `compute_wait`. -/
def compute_up (cfg : HardwareConfig) (hv : String) (remote : Bool)
    (bProc wProc : ProcResult) (waitEnv : Nat → ProcResult) :
    Except Fatal Unit × List Event :=
  let macs := cfg.compute_nodes.map (fun node => node.mac)
  if macs = [] then
    (.ok (),
      [Event.msg
        "No compute nodes defined in hardware config. Cannot wake any nodes."])
  else
    match get_broadcast_address cfg hv remote bProc with
    | (.error f, ev) => (.error f, ev)
    | (.ok broadcast, ev1) =>
        match run_command cfg (wolCmd hv broadcast) remote true wProc with
        | .error e =>
            (.error (.cmdFailed e), ev1 ++ [Event.run (wolCmd hv broadcast)])
        | .ok _ =>
            ((compute_wait cfg waitEnv).1,
              ev1 ++ [Event.run (wolCmd hv broadcast)] ++
                (compute_wait cfg waitEnv).2)

/-- The operation steps of the full bootstrap, at the granularity the spec
names them (`wake` covers `compute_up` including its internal wait). -/
inductive Op
  | shutdown
  | buildImage
  | configureControl
  | wake
  | wait
  | configureCompute
deriving DecidableEq, Repr

/-- The external-process results one full-bootstrap run consumes. -/
structure ClusterEnv where
  statusProc : ProcResult
  shutdownProc : ProcResult
  buildProc : ProcResult
  chownProc : ProcResult
  controlConfProc : ProcResult
  broadcastProc : ProcResult
  wolProc : ProcResult
  upWaitEnv : Nat → ProcResult
  waitEnv : Nat → ProcResult
  computeConfProc : ProcResult

/-- `cluster_configure` from `scripts/cluster.py` (the full bootstrap):
probe compute-node status (skipping the check when no nodes are
configured); if any status value is `UP` run `compute_down` first;
then `control_build_image`, `control_configure`, `compute_up`,
`compute_wait`, `compute_configure` in that order, each attempted only if
everything before it succeeded.  Returns the outcome, the event log, and
the list of bootstrap steps attempted. -/
def cluster_configure (cfg : HardwareConfig) (hv : String) (remote : Bool)
    (env : ClusterEnv) : Except Fatal Unit × List Event × List Op :=
  let compute_nodes_up :=
    if cfg.compute_nodes = [] then false
    else ((statusesOf cfg env.statusProc).map (fun p => p.2)).contains
      Status.UP
  let ev0 :=
    if cfg.compute_nodes = [] then
      [Event.msg "No compute nodes defined, skipping shutdown check."]
    else [Event.run (statusCmd DYN_INVENTORY_RELATIVE_PATH)]
  let ev1 :=
    if compute_nodes_up then (compute_down cfg remote env.shutdownProc).2
    else
      [Event.msg
        "All compute nodes are already down. Proceeding with configuration."]
  let ops1 := if compute_nodes_up then [Op.shutdown] else []
  -- `compute_down` catches its `CalledProcessError`, so the bootstrap never
  -- aborts at the shutdown step; the sequence continues unconditionally.
  match control_build_image cfg hv remote env.buildProc env.chownProc with
  | (.error f, ev2) =>
      (.error f, ev0 ++ ev1 ++ ev2, ops1 ++ [Op.buildImage])
  | (.ok _, ev2) =>
    match control_configure cfg hv remote env.controlConfProc with
    | (.error f, ev3) =>
        (.error f, ev0 ++ ev1 ++ ev2 ++ ev3,
          ops1 ++ [Op.buildImage, Op.configureControl])
    | (.ok _, ev3) =>
      match compute_up cfg hv remote env.broadcastProc env.wolProc
          env.upWaitEnv with
      | (.error f, ev4) =>
          (.error f, ev0 ++ ev1 ++ ev2 ++ ev3 ++ ev4,
            ops1 ++ [Op.buildImage, Op.configureControl, Op.wake])
      | (.ok _, ev4) =>
        match compute_wait cfg env.waitEnv with
        | (.error f, ev5) =>
            (.error f, ev0 ++ ev1 ++ ev2 ++ ev3 ++ ev4 ++ ev5,
              ops1 ++ [Op.buildImage, Op.configureControl, Op.wake, Op.wait])
        | (.ok _, ev5) =>
            ((compute_configure cfg hv remote env.computeConfProc).1,
              ev0 ++ ev1 ++ ev2 ++ ev3 ++ ev4 ++ ev5 ++
                (compute_configure cfg hv remote env.computeConfProc).2,
              ops1 ++ [Op.buildImage, Op.configureControl, Op.wake, Op.wait,
                Op.configureCompute])

/-- jinja2 rendering with the **default** environment of
`generate_inventory`: a variable undefined in the dictionary stringifies to
the empty string (`jinja2.Undefined`); no exception is raised for plain
substitution. -/
def renderTemplate (vars : List (String × String)) (t : List TPiece) :
    String :=
  t.foldl (fun acc piece =>
    acc ++ match piece with
      | TPiece.lit s => s
      | TPiece.var v =>
          match lookupA vars v with
          | some s => s
          | none => "") ""

/-- `generate_inventory` from `scripts/cluster.py`: renders each node's
address template against the auxiliary variable dictionary and emits the
two-section inventory text (one `name ansible_host=addr` line per node, in
order, then the group-variable block). -/
def generate_inventory (cfg : HardwareConfig)
    (ansible_vars : List (String × String)) : String :=
  let inventory_lines := cfg.compute_nodes.map (fun node =>
    node.name ++ " ansible_host=" ++ renderTemplate ansible_vars node.ip)
  "[compute]\n" ++ String.intercalate "\n" inventory_lines ++
    "\n\n[compute:vars]\nansible_user=compute\n"

/-- Modelled from the spec (section 4.2): the claimed strict behavior in
which inventory synthesis fails with `TemplateResolutionError` when a
node's address template references an undefined variable.  The repository's
`generate_inventory` has no such failure path; this definition exists only
to compare the spec's words against the code. -/
def generate_inventory_spec (cfg : HardwareConfig)
    (ansible_vars : List (String × String)) : Except Unit String :=
  if cfg.compute_nodes.any (fun node => node.ip.any (fun piece =>
      match piece with
      | TPiece.var v => (lookupA ansible_vars v).isNone
      | TPiece.lit _ => false)) then
    .error ()
  else .ok (generate_inventory cfg ansible_vars)

/-- The claim's reading of the broadcast contract: the first quoted field
following the `"msg":` marker on a line. -/
def firstQuotedFieldAfterMarker (line : String) : Option String :=
  match afterFirst ("\"msg\":".toList) line.toList with
  | some rest =>
      ((splitWhen (fun c => c = '"') rest).get? 1).map (fun l => String.mk l)
  | none => none

/-! ## The legacy orchestrator (`cluster.py` at the repository root)

Only the parts claim C4 compares against the current orchestrator. -/

/-- The ping command of the legacy `compute_wait`. -/
def legacyPingCmd : String :=
  "ansible compute -i " ++ DYN_INVENTORY_RELATIVE_PATH ++ " -m ping"

/-- The configuration-job command of the legacy `compute_configure`. -/
def legacyComputeConfigureCmd : String :=
  "ansible-playbook -i " ++ DYN_INVENTORY_RELATIVE_PATH ++
    " ansible/compute_configure.yml --become"

/-- The loop of the legacy `compute_wait` (`for i in range(10)`): each
attempt runs the whole-group ping with `check=True`; exit 0 returns 0,
a `CalledProcessError` sleeps 5 seconds and retries; exhaustion exits 1. -/
def legacy_compute_wait_go (env : Nat → ProcResult) :
    Nat → Nat → Except Fatal Unit × List Event
  | _, 0 =>
      (.error (.exited 1),
        [Event.msg "Compute nodes are not reachable after 10 attempts."])
  | i, r + 1 =>
      if (env i).returncode = 0 then
        (.ok (),
          [Event.run legacyPingCmd,
           Event.msg "All compute nodes are reachable."])
      else
        ((legacy_compute_wait_go env (i + 1) r).1,
          [Event.run legacyPingCmd, Event.sleepSec 5] ++
            (legacy_compute_wait_go env (i + 1) r).2)

/-- The legacy `compute_wait` from `cluster.py`: regenerates the
lease-derived inventory (reading the dnsmasq lease file through the command
executor; a failed read exits 1), then polls the group ping up to 10
times. -/
def legacy_compute_wait (leaseProc : ProcResult) (env : Nat → ProcResult) :
    Except Fatal Unit × List Event :=
  if leaseProc.returncode ≠ 0 then
    (.error (.exited 1), [Event.run "cat /var/lib/misc/dnsmasq.leases"])
  else
    ((legacy_compute_wait_go env 0 10).1,
      Event.run "cat /var/lib/misc/dnsmasq.leases" ::
        (legacy_compute_wait_go env 0 10).2)

/-- The legacy `compute_configure` from `cluster.py`: calls `compute_wait`
first (whose exhaustion terminates the process before the job can run; the
`if compute_wait(args) != 0` guard is vacuous because the wait returns 0
whenever it returns at all), then dispatches the configuration job with
`check=True`. -/
def legacy_compute_configure (leaseProc : ProcResult)
    (env : Nat → ProcResult) (jobProc : ProcResult) :
    Except Fatal Unit × List Event :=
  match legacy_compute_wait leaseProc env with
  | (.error f, ev) => (.error f, ev)
  | (.ok _, ev) =>
      if jobProc.returncode ≠ 0 then
        (.error (.cmdFailed ⟨jobProc.returncode, legacyComputeConfigureCmd,
            jobProc.stdout, jobProc.stderr⟩),
          ev ++ [Event.run legacyComputeConfigureCmd])
      else (.ok (), ev ++ [Event.run legacyComputeConfigureCmd])

/-! ## `main` dispatch and the hardware-version surface -/

/-- The preparatory actions `main` performs, in order, before invoking the
selected operation function. -/
inductive MainStep
  | loadVersion
  | loadConfig
  | genInventory
  | mkdirAndRsync
  | dispatch (cmd : String)
deriving DecidableEq, Repr

/-- The action sequence of `main` from `scripts/cluster.py` for a parsed
top-level command: with no command it prints help and exits before doing
anything; for every command other than `doc` and `hardware` it reads the
version-selector file, loads the hardware profile, regenerates the
inventory, and (when remote) creates the remote directory and rsyncs the
tree — all before dispatching to the operation function. -/
def main_steps (command : Option String) (remote : Bool) : List MainStep :=
  match command with
  | none => []
  | some cmd =>
      (if cmd ∈ ["doc", "hardware"] then []
       else
         [MainStep.loadVersion, MainStep.loadConfig, MainStep.genInventory] ++
           (if remote then [MainStep.mkdirAndRsync] else [])) ++
        [MainStep.dispatch cmd]

/-- The files `hardware_set` touches, as a path-keyed store (paths relative
to the project root). -/
structure FS where
  files : List (String × String)
deriving DecidableEq, Repr

/-- `HARDWARE_VERSION_FILE` relative to the project root. -/
def HARDWARE_VERSION_FILE : String := ".hardware_version"

/-- The hardware-vars profile path for a version
(`os.path.join(ANSIBLE_DIR, "hardware_vars", f"{version}.yml")`). -/
def hardwareVarsPath (version : String) : String :=
  "ansible/hardware_vars/" ++ version ++ ".yml"

/-- `os.path.exists` over the modelled store. -/
def os_path_exists (fs : FS) (p : String) : Bool :=
  (fs.files.map (fun f => f.1)).contains p

/-- Writing a file (full overwrite). -/
def writeFile (fs : FS) (p content : String) : FS :=
  ⟨updateAssoc fs.files p content⟩

/-- `hardware_set` from `scripts/cluster.py`: if no profile file exists for
the requested version, log an error and `sys.exit(1)` without touching
anything; otherwise overwrite the version-selector file with the
version. -/
def hardware_set (fs : FS) (version : String) : Except Int Unit × FS :=
  let config_path := hardwareVarsPath version
  if os_path_exists fs config_path = false then
    (.error 1, fs)
  else
    (.ok (), writeFile fs HARDWARE_VERSION_FILE version)

/-- The number of batched status probes recorded in an event log. -/
def countProbes : List Event → Nat
  | [] => 0
  | Event.run c :: rest =>
      (if c = statusCmd DYN_INVENTORY_RELATIVE_PATH then 1 else 0) +
        countProbes rest
  | _ :: rest => countProbes rest

/-- The number of sleeps recorded in an event log. -/
def countSleeps : List Event → Nat
  | [] => 0
  | Event.sleepSec _ :: rest => 1 + countSleeps rest
  | _ :: rest => countSleeps rest

section AssocLemmas

theorem lookupA_updateAssoc {β : Type} (m : List (String × β)) (h k : String)
    (v : β) :
    lookupA (updateAssoc m h v) k = if h = k then some v else lookupA m k := by
  induction m with
  | nil => simp [updateAssoc, lookupA]
  | cons p rest ih =>
      obtain ⟨k0, v0⟩ := p
      by_cases hk0 : k0 = h
      · subst hk0
        by_cases hk : k0 = k
        · subst hk; simp [updateAssoc, lookupA]
        · simp [updateAssoc, lookupA, hk]
      · by_cases hk : k0 = k
        · subst hk
          have : ¬ h = k0 := fun hh => hk0 hh.symm
          simp [updateAssoc, lookupA, hk0, this]
        · simp [updateAssoc, lookupA, hk0, hk, ih]

/-- Folding same-valued updates over a key list: the final binding is `v`
exactly on the keys of the list. -/
theorem lookupA_fold_const {β : Type} (v : β) (ks : List String)
    (m : List (String × β)) (k : String) :
    lookupA (ks.foldl (fun m h => updateAssoc m h v) m) k =
      if k ∈ ks then some v else lookupA m k := by
  induction ks generalizing m with
  | nil => simp
  | cons h ks ih =>
      simp only [List.foldl_cons, ih, lookupA_updateAssoc, List.mem_cons]
      by_cases hks : k ∈ ks
      · simp [hks]
      · by_cases hk : k = h
        · subst hk; simp [hks]
        · have : ¬ h = k := fun hh => hk hh.symm
          simp [hks, hk, this]

end AssocLemmas

/-- The per-line `UP`-marking fold of the prober equals a same-valued fold
over `successNames`. -/
theorem statuses_fold_lines (L : List String) (m : List (String × Status)) :
    L.foldl (fun m line =>
        match pySplit line with
        | p0 :: _ :: p2 :: _ =>
            if p2 = "SUCCESS" then updateAssoc m p0 Status.UP else m
        | _ => m) m =
      (L.filterMap (fun line =>
        match pySplit line with
        | p0 :: _ :: p2 :: _ => if p2 = "SUCCESS" then some p0 else none
        | _ => none)).foldl (fun m h => updateAssoc m h Status.UP) m := by
  induction L generalizing m with
  | nil => rfl
  | cons line L ih =>
      simp only [List.foldl_cons, List.filterMap_cons]
      rcases hsplit : pySplit line with _ | ⟨p0, _ | ⟨p1, _ | ⟨p2, rest⟩⟩⟩ <;>
        simp only [hsplit] <;>
        first
        | exact ih _
        | (by_cases hS : p2 = "SUCCESS" <;> simp [hS, ih])

/-- Claim C1: for every hardware profile and every batched-probe result
(of any exit code), the prober classifies a configured node `UP` exactly
when the probe output contains a success line explicitly naming that node
(first token the node's name, third token `SUCCESS`), and `DOWN`
otherwise; moreover the status map depends only on the probe's stdout,
never on its exit code, so a non-zero probe exit still yields a per-node
status map. -/
theorem get_all_statuses_default_down (cfg : HardwareConfig)
    (inventory_file : String) (proc : ProcResult) (node : ComputeNode)
    (hmem : node ∈ cfg.compute_nodes) :
    lookupA (get_all_compute_node_statuses cfg inventory_file proc).1 node.name
        = some (if node.name ∈ successNames proc.stdout then Status.UP
                else Status.DOWN) ∧
      (get_all_compute_node_statuses cfg inventory_file proc).1 =
        (get_all_compute_node_statuses cfg inventory_file
          ⟨0, proc.stdout, proc.stderr⟩).1 := by
  constructor
  · unfold get_all_compute_node_statuses successNames
    simp only [statuses_fold_lines]
    have hinit :
        cfg.compute_nodes.foldl
            (fun m node => updateAssoc m node.name Status.DOWN) [] =
          (cfg.compute_nodes.map (fun node => node.name)).foldl
            (fun m h => updateAssoc m h Status.DOWN) [] := by
      rw [List.foldl_map]
    rw [hinit, lookupA_fold_const, lookupA_fold_const]
    have hname : node.name ∈ cfg.compute_nodes.map (fun node => node.name) :=
      List.mem_map_of_mem _ hmem
    by_cases hup :
        node.name ∈ (pyLines proc.stdout).filterMap (fun line =>
          match pySplit line with
          | p0 :: _ :: p2 :: _ => if p2 = "SUCCESS" then some p0 else none
          | _ => none)
    · rw [if_pos hup, if_pos hup]
    · rw [if_neg hup, if_neg hup, if_pos hname]
  · rfl

/-- Witness for C1 at a concrete profile and probe: node `odz0` named on a
success line is `UP`, node `odz1` absent from any success line is `DOWN`,
with the probe process exiting non-zero. -/
theorem get_all_statuses_default_down_witness :
    lookupA (get_all_compute_node_statuses
        ⟨none, [⟨"odz0", [TPiece.lit "10.0.0.1"], "aa:bb"⟩,
                ⟨"odz1", [TPiece.lit "10.0.0.2"], "aa:cc"⟩]⟩
        DYN_INVENTORY_RELATIVE_PATH
        ⟨2, "odz0 | SUCCESS => ping\nodz1 | UNREACHABLE!", ""⟩).1 "odz0"
        = some Status.UP ∧
      lookupA (get_all_compute_node_statuses
        ⟨none, [⟨"odz0", [TPiece.lit "10.0.0.1"], "aa:bb"⟩,
                ⟨"odz1", [TPiece.lit "10.0.0.2"], "aa:cc"⟩]⟩
        DYN_INVENTORY_RELATIVE_PATH
        ⟨2, "odz0 | SUCCESS => ping\nodz1 | UNREACHABLE!", ""⟩).1 "odz1"
        = some Status.DOWN := by
  have h0 := (get_all_statuses_default_down
    ⟨none, [⟨"odz0", [TPiece.lit "10.0.0.1"], "aa:bb"⟩,
            ⟨"odz1", [TPiece.lit "10.0.0.2"], "aa:cc"⟩]⟩
    DYN_INVENTORY_RELATIVE_PATH
    ⟨2, "odz0 | SUCCESS => ping\nodz1 | UNREACHABLE!", ""⟩
    ⟨"odz0", [TPiece.lit "10.0.0.1"], "aa:bb"⟩ (by simp)).1
  have h1 := (get_all_statuses_default_down
    ⟨none, [⟨"odz0", [TPiece.lit "10.0.0.1"], "aa:bb"⟩,
            ⟨"odz1", [TPiece.lit "10.0.0.2"], "aa:cc"⟩]⟩
    DYN_INVENTORY_RELATIVE_PATH
    ⟨2, "odz0 | SUCCESS => ping\nodz1 | UNREACHABLE!", ""⟩
    ⟨"odz1", [TPiece.lit "10.0.0.2"], "aa:cc"⟩ (by simp)).1
  refine ⟨?_, ?_⟩
  · rw [h0]
    decide
  · rw [h1]
    decide

/-! ## Claim C10: the hardware-set surface -/

/-- Claim C10: `hardware set <version>` writes the version-selector file
exactly when a hardware-profile file for that version exists; when the
profile file is absent it terminates with a non-zero status and leaves the
whole file store (in particular any previously stored version selector)
unchanged. -/
theorem hardware_set_writes_iff (fs : FS) (version : String) :
    (os_path_exists fs (hardwareVarsPath version) = true →
      (hardware_set fs version).1 = .ok () ∧
      lookupA (hardware_set fs version).2.files HARDWARE_VERSION_FILE =
        some version) ∧
    (os_path_exists fs (hardwareVarsPath version) = false →
      (hardware_set fs version).1 = .error 1 ∧
      (hardware_set fs version).2 = fs) := by
  constructor
  · intro h
    simp [hardware_set, h, writeFile, lookupA_updateAssoc]
  · intro h
    simp [hardware_set, h]

/-- Witness for C10: with only the `0.1` profile present, setting `0.1`
writes the selector, setting `0.2` exits 1 and leaves the store intact. -/
theorem hardware_set_writes_iff_witness :
    ((hardware_set ⟨[("ansible/hardware_vars/0.1.yml", "")]⟩ "0.1").1 =
        .ok () ∧
      lookupA (hardware_set ⟨[("ansible/hardware_vars/0.1.yml", "")]⟩
          "0.1").2.files HARDWARE_VERSION_FILE = some "0.1") ∧
    ((hardware_set ⟨[("ansible/hardware_vars/0.1.yml", "")]⟩ "0.2").1 =
        .error 1 ∧
      (hardware_set ⟨[("ansible/hardware_vars/0.1.yml", "")]⟩ "0.2").2 =
        ⟨[("ansible/hardware_vars/0.1.yml", "")]⟩) :=
  ⟨(hardware_set_writes_iff ⟨[("ansible/hardware_vars/0.1.yml", "")]⟩
      "0.1").1 (by decide),
   (hardware_set_writes_iff ⟨[("ansible/hardware_vars/0.1.yml", "")]⟩
      "0.2").2 (by decide)⟩

/-! ## Claim C9: main always reloads the profile and regenerates the
inventory before dispatch -/

/-- Claim C9: for every CLI verb other than `doc` and `hardware`, `main`
reads the version selector, loads the hardware profile and regenerates the
inventory — in that order, on this very invocation — before the operation
function is dispatched; the inventory is never taken over from a previous
run. -/
theorem main_loads_and_regenerates (cmd : String) (remote : Bool)
    (h : cmd ∉ ["doc", "hardware"]) :
    main_steps (some cmd) remote =
      ([MainStep.loadVersion, MainStep.loadConfig, MainStep.genInventory] ++
        (if remote then [MainStep.mkdirAndRsync] else [])) ++
        [MainStep.dispatch cmd] ∧
    ∃ pre, main_steps (some cmd) remote = pre ++ [MainStep.dispatch cmd] ∧
      MainStep.loadVersion ∈ pre ∧ MainStep.loadConfig ∈ pre ∧
      MainStep.genInventory ∈ pre := by
  refine ⟨by simp [main_steps, h], ?_⟩
  refine ⟨[MainStep.loadVersion, MainStep.loadConfig, MainStep.genInventory] ++
    (if remote then [MainStep.mkdirAndRsync] else []), ?_, ?_, ?_, ?_⟩
  · simp [main_steps, h]
  · simp
  · simp
  · simp

/-- Witness for C9 at the `configure` verb with the remote target. -/
theorem main_loads_and_regenerates_witness :
    main_steps (some "configure") true =
      ([MainStep.loadVersion, MainStep.loadConfig, MainStep.genInventory] ++
        (if true then [MainStep.mkdirAndRsync] else [])) ++
        [MainStep.dispatch "configure"] ∧
    ∃ pre, main_steps (some "configure") true =
        pre ++ [MainStep.dispatch "configure"] ∧
      MainStep.loadVersion ∈ pre ∧ MainStep.loadConfig ∈ pre ∧
      MainStep.genInventory ∈ pre :=
  main_loads_and_regenerates "configure" true (by decide)

/-! ## Claim C5: shutdown/reboot tolerate non-zero exits, configure
operations propagate them -/

/-- A checked dispatch of a non-zero-exiting process raises
`CalledProcessError` carrying that process's exit code and streams. -/
theorem run_command_fails (cfg : HardwareConfig) (command : String)
    (remote : Bool) (proc : ProcResult) (h : proc.returncode ≠ 0) :
    ∃ c, run_command cfg command remote true proc =
      .error ⟨proc.returncode, c, proc.stdout, proc.stderr⟩ := by
  exact ⟨_, by simp [run_command, h]; rfl⟩

/-- Claim C5: a non-zero exit of the remote shutdown or reboot command is
caught and logged as expected and the operation completes without a fatal
outcome, while the same non-zero exit from `compute_configure`,
`control_configure` or `control_build_image` is fatal and propagated with
the process's exit code and output streams unmodified. -/
theorem shutdown_tolerated_configure_fatal (cfg : HardwareConfig)
    (remote : Bool) (proc : ProcResult) (h : proc.returncode ≠ 0) :
    ((compute_down cfg remote proc).1 = .ok () ∧
      Event.msg ("SSH connection failed during shutdown, which is expected: "
        ++ toString proc.returncode) ∈ (compute_down cfg remote proc).2) ∧
    ((compute_restart cfg remote proc).1 = .ok () ∧
      Event.msg ("SSH connection failed during reboot, which is expected: "
        ++ toString proc.returncode) ∈ (compute_restart cfg remote proc).2) ∧
    (∀ hv, ∃ e, (compute_configure cfg hv remote proc).1 =
        .error (.cmdFailed e) ∧ e.returncode = proc.returncode ∧
        e.output = proc.stdout ∧ e.stderr = proc.stderr) ∧
    (∀ hv, ∃ e, (control_configure cfg hv remote proc).1 =
        .error (.cmdFailed e) ∧ e.returncode = proc.returncode ∧
        e.output = proc.stdout ∧ e.stderr = proc.stderr) ∧
    (∀ hv chownProc, ∃ e,
        (control_build_image cfg hv remote proc chownProc).1 =
          .error (.cmdFailed e) ∧ e.returncode = proc.returncode ∧
        e.output = proc.stdout ∧ e.stderr = proc.stderr) := by
  refine ⟨?_, ?_, ?_, ?_, ?_⟩
  · simp [compute_down, run_command, h]
  · simp [compute_restart, run_command, h]
  · intro hv
    obtain ⟨c, hc⟩ := run_command_fails cfg (computeConfigureCmd hv) remote
      proc h
    exact ⟨⟨proc.returncode, c, proc.stdout, proc.stderr⟩,
      by simp [compute_configure, hc], rfl, rfl, rfl⟩
  · intro hv
    obtain ⟨c, hc⟩ := run_command_fails cfg (controlConfigureCmd hv) remote
      proc h
    exact ⟨⟨proc.returncode, c, proc.stdout, proc.stderr⟩,
      by simp [control_configure, hc], rfl, rfl, rfl⟩
  · intro hv chownProc
    obtain ⟨c, hc⟩ := run_command_fails cfg (buildImageCmd hv) remote proc h
    exact ⟨⟨proc.returncode, c, proc.stdout, proc.stderr⟩,
      by simp [control_build_image, hc], rfl, rfl, rfl⟩

/-- Witness for C5 at exit code 4. -/
theorem shutdown_tolerated_configure_fatal_witness :
    ((compute_down ⟨none, []⟩ true ⟨4, "o", "e"⟩).1 = .ok () ∧
      Event.msg ("SSH connection failed during shutdown, which is expected: "
        ++ toString (4 : Int)) ∈ (compute_down ⟨none, []⟩ true ⟨4, "o", "e"⟩).2) ∧
    ((compute_restart ⟨none, []⟩ true ⟨4, "o", "e"⟩).1 = .ok () ∧
      Event.msg ("SSH connection failed during reboot, which is expected: "
        ++ toString (4 : Int)) ∈
          (compute_restart ⟨none, []⟩ true ⟨4, "o", "e"⟩).2) ∧
    (∀ hv, ∃ e, (compute_configure ⟨none, []⟩ hv true ⟨4, "o", "e"⟩).1 =
        .error (.cmdFailed e) ∧ e.returncode = (4 : Int) ∧
        e.output = "o" ∧ e.stderr = "e") ∧
    (∀ hv, ∃ e, (control_configure ⟨none, []⟩ hv true ⟨4, "o", "e"⟩).1 =
        .error (.cmdFailed e) ∧ e.returncode = (4 : Int) ∧
        e.output = "o" ∧ e.stderr = "e") ∧
    (∀ hv chownProc, ∃ e,
        (control_build_image ⟨none, []⟩ hv true ⟨4, "o", "e"⟩ chownProc).1 =
          .error (.cmdFailed e) ∧ e.returncode = (4 : Int) ∧
        e.output = "o" ∧ e.stderr = "e") :=
  shutdown_tolerated_configure_fatal ⟨none, []⟩ true ⟨4, "o", "e"⟩ (by decide)

/-! ## Claim C3: undefined template variables do not fail synthesis -/

/-- Counterexample to C3: a profile whose single node's address template is
one undefined variable.  `generate_inventory` does not fail with a
`TemplateResolutionError`; it silently emits the inventory with that
address resolved to the empty string (jinja2's default `Undefined` renders
as `""`), while the spec-modelled strict synthesizer would fail here. -/
theorem generate_inventory_undefined_counterexample :
    generate_inventory
        ⟨none, [⟨"odz0", [TPiece.var "compute_subnet"], "aa:bb"⟩]⟩ [] =
      "[compute]\nodz0 ansible_host=\n\n[compute:vars]\nansible_user=compute\n"
      ∧
    generate_inventory_spec
        ⟨none, [⟨"odz0", [TPiece.var "compute_subnet"], "aa:bb"⟩]⟩ [] =
      .error () := by
  exact ⟨rfl, rfl⟩

/-- Claim C3 as amended: inventory synthesis never fails; a node address
template referencing a variable undefined in the auxiliary dictionary
renders as the empty string, and the node's inventory line is emitted with
an empty `ansible_host` value. -/
theorem generate_inventory_undefined_empty (cfg : HardwareConfig)
    (vars : List (String × String)) (node : ComputeNode) (v : String)
    (hmem : node ∈ cfg.compute_nodes) (hip : node.ip = [TPiece.var v])
    (hvar : lookupA vars v = none) :
    renderTemplate vars node.ip = "" ∧
    (node.name ++ " ansible_host=") ∈ cfg.compute_nodes.map (fun n =>
        n.name ++ " ansible_host=" ++ renderTemplate vars n.ip) ∧
    generate_inventory cfg vars =
      "[compute]\n" ++ String.intercalate "\n" (cfg.compute_nodes.map (fun n =>
        n.name ++ " ansible_host=" ++ renderTemplate vars n.ip)) ++
      "\n\n[compute:vars]\nansible_user=compute\n" := by
  have hrender : renderTemplate vars node.ip = "" := by
    simp [renderTemplate, hip, hvar]
  refine ⟨hrender, ?_, rfl⟩
  refine List.mem_map.2 ⟨node, hmem, ?_⟩
  rw [hrender]
  exact String.append_empty _

/-- Witness for the amended C3 at a concrete one-node profile. -/
theorem generate_inventory_undefined_empty_witness :
    renderTemplate [] (⟨"odz0", [TPiece.var "compute_subnet"], "aa:bb"⟩ :
        ComputeNode).ip = "" ∧
    ("odz0" ++ " ansible_host=") ∈
      ([⟨"odz0", [TPiece.var "compute_subnet"], "aa:bb"⟩] :
        List ComputeNode).map (fun n =>
          n.name ++ " ansible_host=" ++ renderTemplate [] n.ip) ∧
    generate_inventory ⟨none, [⟨"odz0", [TPiece.var "compute_subnet"],
        "aa:bb"⟩]⟩ [] =
      "[compute]\n" ++ String.intercalate "\n"
        (([⟨"odz0", [TPiece.var "compute_subnet"], "aa:bb"⟩] :
          List ComputeNode).map (fun n =>
            n.name ++ " ansible_host=" ++ renderTemplate [] n.ip)) ++
      "\n\n[compute:vars]\nansible_user=compute\n" :=
  generate_inventory_undefined_empty
    ⟨none, [⟨"odz0", [TPiece.var "compute_subnet"], "aa:bb"⟩]⟩ []
    ⟨"odz0", [TPiece.var "compute_subnet"], "aa:bb"⟩ "compute_subnet"
    (by simp) rfl rfl

/-! ## Claim C8: broadcast-address extraction -/

/-- Counterexample to C8: on the line `"a": "b", "msg": "c"` the extraction
returns `b` — the fourth quote-split field of the line — not `c`, the first
quoted field following the `"msg":` marker as the claim states. -/
theorem get_broadcast_address_counterexample :
    (get_broadcast_address ⟨none, []⟩ "0.1" true
        ⟨0, "\"a\": \"b\", \"msg\": \"c\"", ""⟩).1 = .ok "b" ∧
    firstQuotedFieldAfterMarker "\"a\": \"b\", \"msg\": \"c\"" = some "c" ∧
    ("b" : String) ≠ "c" := by
  refine ⟨?_, ?_, ?_⟩
  · rfl
  · rfl
  · decide

/-- Claim C8 as amended: the extraction takes the first line containing the
`"msg":` marker and returns index 3 of its quote-split (the second quoted
field of the whole line — which coincides with the first quoted field after
the marker exactly when the marker opens the line's quoted material), with
an uncaught index error when that line has fewer than four quote-split
fields; when no line contains the marker it logs an error and terminates
with exit status 1 (the spec's `BroadcastParseError`). -/
theorem get_broadcast_parses_index3 (cfg : HardwareConfig) (hv : String)
    (remote : Bool) (proc : ProcResult) (h0 : proc.returncode = 0) :
    ((pyLines proc.stdout).find?
        (fun line => pyContains line "\"msg\":") = none →
      (get_broadcast_address cfg hv remote proc).1 = .error (.exited 1)) ∧
    (∀ line, (pyLines proc.stdout).find?
        (fun line => pyContains line "\"msg\":") = some line →
      (get_broadcast_address cfg hv remote proc).1 =
        match (pySplitQuote line).get? 3 with
        | some broadcast => .ok broadcast
        | none => .error Fatal.indexError) := by
  have hok : run_command cfg (getBroadcastCmd hv) remote true proc = .ok proc := by
    simp [run_command, h0]
  constructor
  · intro hfind
    simp [get_broadcast_address, hok, hfind]
  · intro line hfind
    simp only [get_broadcast_address, hok, hfind]
    cases (pySplitQuote line).get? 3 <;> rfl

/-- Witness for the amended C8 at the canonical output line
`    "msg": "192.0.2.255"`. -/
theorem get_broadcast_parses_index3_witness :
    (get_broadcast_address ⟨none, []⟩ "0.1" true
        ⟨0, "    \"msg\": \"192.0.2.255\"", ""⟩).1 = .ok "192.0.2.255" := by
  have h := (get_broadcast_parses_index3 ⟨none, []⟩ "0.1" true
    ⟨0, "    \"msg\": \"192.0.2.255\"", ""⟩ rfl).2
    "    \"msg\": \"192.0.2.255\"" (by rfl)
  exact h.trans (by rfl)

/-! ## Claim C4: configure-compute and reachability -/

/-- The legacy reachability loop, when no attempt ever succeeds, exhausts
its attempts and exits 1; its event log never contains the
compute-configuration job dispatch. -/
theorem legacy_wait_go_exhausts (env : Nat → ProcResult)
    (hdown : ∀ i, (env i).returncode ≠ 0) (r : Nat) :
    ∀ i, (legacy_compute_wait_go env i r).1 = .error (.exited 1) ∧
      Event.run legacyComputeConfigureCmd ∉ (legacy_compute_wait_go env i r).2
    := by
  induction r with
  | zero =>
      intro i
      simp [legacy_compute_wait_go]
  | succ r ih =>
      intro i
      have hne : legacyPingCmd ≠ legacyComputeConfigureCmd := by decide
      simp only [legacy_compute_wait_go, hdown i, if_neg]
      refine ⟨(ih (i + 1)).1, ?_⟩
      intro hmem
      rcases List.mem_append.1 hmem with hl | hr
      · rcases List.mem_cons.1 hl with hq | hq
        · exact hne (Event.run.inj hq).symm
        · simp at hq
      · exact (ih (i + 1)).2 hr

/-- Counterexample to C4: in the current orchestrator, with a one-node
profile whose probe reports the node `DOWN` (not all nodes reachable),
`compute_configure` performs no reachability verification and dispatches
the external configuration job anyway: its whole event log is exactly that
single job dispatch, with no probe and no abort. -/
theorem compute_configure_no_reachability_counterexample :
    lookupA (statusesOf ⟨none, [⟨"odz0", [TPiece.lit "10.0.0.1"], "aa:bb"⟩]⟩
        ⟨4, "", ""⟩) "odz0" = some Status.DOWN ∧
    (compute_configure ⟨none, [⟨"odz0", [TPiece.lit "10.0.0.1"], "aa:bb"⟩]⟩
        "0.1" true ⟨0, "", ""⟩).1 = .ok () ∧
    (compute_configure ⟨none, [⟨"odz0", [TPiece.lit "10.0.0.1"], "aa:bb"⟩]⟩
        "0.1" true ⟨0, "", ""⟩).2 = [Event.run (computeConfigureCmd "0.1")]
    := by
  refine ⟨?_, ?_, ?_⟩
  · rfl
  · rfl
  · rfl

/-- Claim C4 as amended: only the legacy orchestrator's `compute_configure`
verifies reachability first — its embedded wait terminates the process
(exit 1) before the job is dispatched when the nodes never respond — while
the current orchestrator's `compute_configure` dispatches the external job
unconditionally, without any reachability check. -/
theorem compute_configure_reachability_amended (cfg : HardwareConfig)
    (hv : String) (remote : Bool) (proc : ProcResult)
    (leaseProc : ProcResult) (env : Nat → ProcResult) (jobProc : ProcResult)
    (hlease : leaseProc.returncode = 0)
    (hdown : ∀ i, (env i).returncode ≠ 0) :
    ((legacy_compute_configure leaseProc env jobProc).1 =
        .error (.exited 1) ∧
      Event.run legacyComputeConfigureCmd ∉
        (legacy_compute_configure leaseProc env jobProc).2) ∧
    (compute_configure cfg hv remote proc).2 =
      [Event.run (computeConfigureCmd hv)] := by
  have hwait := legacy_wait_go_exhausts env hdown 10 0
  have hl : legacy_compute_wait leaseProc env =
      ((legacy_compute_wait_go env 0 10).1,
        Event.run "cat /var/lib/misc/dnsmasq.leases" ::
          (legacy_compute_wait_go env 0 10).2) := by
    simp [legacy_compute_wait, hlease]
  constructor
  · have hcfgeq : legacy_compute_configure leaseProc env jobProc =
        (.error (.exited 1),
          Event.run "cat /var/lib/misc/dnsmasq.leases" ::
            (legacy_compute_wait_go env 0 10).2) := by
      rw [legacy_compute_configure, hl, hwait.1]
    rw [hcfgeq]
    refine ⟨rfl, ?_⟩
    intro hmem
    rcases List.mem_cons.1 hmem with hq | hq
    · exact (by decide :
        ("cat /var/lib/misc/dnsmasq.leases" : String) ≠
          legacyComputeConfigureCmd) (Event.run.inj hq).symm
    · exact hwait.2 hq
  · rcases hrc : run_command cfg (computeConfigureCmd hv) remote true proc
      with e | p <;> simp [compute_configure, hrc]

/-- Witness for the amended C4: one lease read succeeding, every ping
failing, a job process that would succeed. -/
theorem compute_configure_reachability_amended_witness :
    ((legacy_compute_configure ⟨0, "lease", ""⟩ (fun _ => ⟨1, "", ""⟩)
        ⟨0, "", ""⟩).1 = .error (.exited 1) ∧
      Event.run legacyComputeConfigureCmd ∉
        (legacy_compute_configure ⟨0, "lease", ""⟩ (fun _ => ⟨1, "", ""⟩)
          ⟨0, "", ""⟩).2) ∧
    (compute_configure ⟨none, [⟨"odz0", [TPiece.lit "10.0.0.1"], "aa:bb"⟩]⟩
        "0.1" true ⟨0, "", ""⟩).2 =
      [Event.run (computeConfigureCmd "0.1")] :=
  compute_configure_reachability_amended
    ⟨none, [⟨"odz0", [TPiece.lit "10.0.0.1"], "aa:bb"⟩]⟩ "0.1" true
    ⟨0, "", ""⟩ ⟨0, "lease", ""⟩ (fun _ => ⟨1, "", ""⟩) ⟨0, "", ""⟩ rfl
    (fun _ => one_ne_zero)

/-! ## Claims C6 and C7: the reachability waiter -/

theorem countProbes_append (a b : List Event) :
    countProbes (a ++ b) = countProbes a + countProbes b := by
  induction a with
  | nil => simp [countProbes]
  | cons e rest ih => cases e <;> (simp [countProbes, ih]; try omega)

theorem countSleeps_append (a b : List Event) :
    countSleeps (a ++ b) = countSleeps a + countSleeps b := by
  induction a with
  | nil => simp [countSleeps]
  | cons e rest ih => cases e <;> (simp [countSleeps, ih]; try omega)

/-- A successful-at-attempt-`k` run of the wait loop: `k+1` probes, `k`
sleeps, success. -/
theorem compute_wait_go_success_counts (cfg : HardwareConfig)
    (env : Nat → ProcResult) :
    ∀ k r i, k < r →
      (∀ j, j < k → allUpStatuses cfg (env (i + j)) = false) →
      allUpStatuses cfg (env (i + k)) = true →
      (compute_wait_go cfg env i r).1 = .ok () ∧
      countProbes (compute_wait_go cfg env i r).2 = k + 1 ∧
      countSleeps (compute_wait_go cfg env i r).2 = k := by
  intro k
  induction k with
  | zero =>
      intro r i hkr hfail hsucc
      obtain ⟨r', rfl⟩ : ∃ r', r = r' + 1 := ⟨r - 1, by omega⟩
      have h0 : allUpStatuses cfg (env i) = true := by simpa using hsucc
      simp [compute_wait_go, h0, countProbes, countSleeps]
  | succ k ih =>
      intro r i hkr hfail hsucc
      obtain ⟨r', rfl⟩ : ∃ r', r = r' + 1 := ⟨r - 1, by omega⟩
      have h0 : allUpStatuses cfg (env i) = false := by
        simpa using hfail 0 (Nat.succ_pos k)
      have hrec := ih r' (i + 1) (by omega)
        (fun j hj => by
          have hs := hfail (j + 1) (by omega)
          have heq : i + (j + 1) = i + 1 + j := by omega
          rwa [heq] at hs)
        (by
          have heq : i + (k + 1) = i + 1 + k := by omega
          rwa [heq] at hsucc)
      refine ⟨?_, ?_, ?_⟩
      · simp [compute_wait_go, h0, hrec.1]
      · simp [compute_wait_go, h0, countProbes_append, countProbes,
          hrec.2.1]
        omega
      · simp [compute_wait_go, h0, countSleeps_append, countSleeps,
          hrec.2.2]
        omega

/-- Claim C6: with at least one configured compute node, if the prober
reports not-all-UP on the first `k` attempts and all-UP at attempt `k`
(`k < 100`, the maximum attempt count), `compute_wait` succeeds after
exactly `k+1` probe dispatches and exactly `k` sleeps — one after each
failed attempt, none after the successful one; and with zero configured
compute nodes it succeeds immediately with no probe and no sleep. -/
theorem compute_wait_success_counts (cfg : HardwareConfig)
    (env : Nat → ProcResult) (k : Nat) (hk : k < 100)
    (hfail : ∀ i, i < k → allUpStatuses cfg (env i) = false)
    (hsucc : allUpStatuses cfg (env k) = true) :
    (cfg.compute_nodes ≠ [] →
      (compute_wait cfg env).1 = .ok () ∧
      countProbes (compute_wait cfg env).2 = k + 1 ∧
      countSleeps (compute_wait cfg env).2 = k) ∧
    (cfg.compute_nodes = [] →
      (compute_wait cfg env).1 = .ok () ∧
      countProbes (compute_wait cfg env).2 = 0 ∧
      countSleeps (compute_wait cfg env).2 = 0) := by
  constructor
  · intro hne
    have h := compute_wait_go_success_counts cfg env k 100 0 hk
      (fun j hj => by simpa using hfail j hj) (by simpa using hsucc)
    simpa [compute_wait, hne] using h
  · intro he
    simp [compute_wait, he, countProbes, countSleeps]

/-- Witness for C6: one node, first probe fails, second succeeds (`k = 1`);
and the zero-node profile succeeds with no probe. -/
theorem compute_wait_success_counts_witness :
    ((compute_wait ⟨none, [⟨"odz0", [TPiece.lit "10.0.0.1"], "aa:bb"⟩]⟩
        (fun i => if i = 0 then ⟨1, "", ""⟩
          else ⟨0, "odz0 | SUCCESS => ping", ""⟩)).1 = .ok () ∧
      countProbes (compute_wait
        ⟨none, [⟨"odz0", [TPiece.lit "10.0.0.1"], "aa:bb"⟩]⟩
        (fun i => if i = 0 then ⟨1, "", ""⟩
          else ⟨0, "odz0 | SUCCESS => ping", ""⟩)).2 = 1 + 1 ∧
      countSleeps (compute_wait
        ⟨none, [⟨"odz0", [TPiece.lit "10.0.0.1"], "aa:bb"⟩]⟩
        (fun i => if i = 0 then ⟨1, "", ""⟩
          else ⟨0, "odz0 | SUCCESS => ping", ""⟩)).2 = 1) ∧
    ((compute_wait ⟨none, []⟩
        (fun i => if i = 0 then ⟨1, "", ""⟩
          else ⟨0, "odz0 | SUCCESS => ping", ""⟩)).1 = .ok () ∧
      countProbes (compute_wait ⟨none, []⟩
        (fun i => if i = 0 then ⟨1, "", ""⟩
          else ⟨0, "odz0 | SUCCESS => ping", ""⟩)).2 = 0 ∧
      countSleeps (compute_wait ⟨none, []⟩
        (fun i => if i = 0 then ⟨1, "", ""⟩
          else ⟨0, "odz0 | SUCCESS => ping", ""⟩)).2 = 0) := by
  constructor
  · exact (compute_wait_success_counts
      ⟨none, [⟨"odz0", [TPiece.lit "10.0.0.1"], "aa:bb"⟩]⟩
      (fun i => if i = 0 then ⟨1, "", ""⟩
        else ⟨0, "odz0 | SUCCESS => ping", ""⟩) 1 (by omega)
      (fun i hi => by
        have : i = 0 := by omega
        subst this
        decide)
      (by decide)).1 (by decide)
  · exact (compute_wait_success_counts ⟨none, []⟩
      (fun i => if i = 0 then ⟨1, "", ""⟩
        else ⟨0, "odz0 | SUCCESS => ping", ""⟩) 0 (by omega)
      (fun i hi => absurd hi (by omega))
      (by decide)).2 rfl

/-- A never-successful run of the wait loop exhausts its fuel: error exit
and exactly one probe per attempt. -/
theorem compute_wait_go_exhausts_counts (cfg : HardwareConfig)
    (env : Nat → ProcResult)
    (hdown : ∀ i, allUpStatuses cfg (env i) = false) :
    ∀ r i, (compute_wait_go cfg env i r).1 = .error (.exited 1) ∧
      countProbes (compute_wait_go cfg env i r).2 = r := by
  intro r
  induction r with
  | zero => intro i; simp [compute_wait_go, countProbes]
  | succ r ih =>
      intro i
      refine ⟨?_, ?_⟩
      · simp [compute_wait_go, hdown i, (ih (i + 1)).1]
      · simp [compute_wait_go, hdown i, countProbes_append, countProbes,
          (ih (i + 1)).2]
        omega

/-- In a never-successful run, the diagnostic of the final attempt
(0-based attempt `i + r` of a loop entered at `i` with `r + 1` attempts
left) is printed. -/
theorem compute_wait_go_last_diag (cfg : HardwareConfig)
    (env : Nat → ProcResult)
    (hdown : ∀ i, allUpStatuses cfg (env i) = false) :
    ∀ r i, Event.msg (waitAttemptDiag cfg (env (i + r)) (i + r)) ∈
      (compute_wait_go cfg env i (r + 1)).2 := by
  intro r
  induction r with
  | zero =>
      intro i
      simp [compute_wait_go, hdown i]
  | succ r ih =>
      intro i
      have heq : i + 1 + r = i + (r + 1) := by omega
      have hmem := ih (i + 1)
      rw [heq] at hmem
      simp only [compute_wait_go, hdown i, Bool.false_eq_true, if_false]
      exact List.mem_append.2 (Or.inr hmem)

theorem lookupA_mem {β : Type} (m : List (String × β)) (k : String) (v : β)
    (h : lookupA m k = some v) : (k, v) ∈ m := by
  induction m with
  | nil => simp [lookupA] at h
  | cons p rest ih =>
      obtain ⟨k0, v0⟩ := p
      by_cases hk : k0 = k
      · subst hk
        simp [lookupA] at h
        subst h
        exact List.mem_cons_self _ _
      · simp only [lookupA, if_neg hk] at h
        exact List.mem_cons_of_mem _ (ih h)

/-- Claim C7: with at least one configured compute node and a prober that
never reports all nodes UP, `compute_wait` performs exactly 100 probes
(the maximum attempt count) and terminates with `sys.exit(1)`, the final
attempt's printed diagnostic naming every node still `DOWN` at the last
probe. -/
theorem compute_wait_exhaustion (cfg : HardwareConfig)
    (env : Nat → ProcResult) (hne : cfg.compute_nodes ≠ [])
    (hdown : ∀ i, allUpStatuses cfg (env i) = false) :
    (compute_wait cfg env).1 = .error (.exited 1) ∧
    countProbes (compute_wait cfg env).2 = 100 ∧
    Event.msg (waitAttemptDiag cfg (env 99) 99) ∈ (compute_wait cfg env).2 ∧
    ∀ node ∈ cfg.compute_nodes,
      lookupA (statusesOf cfg (env 99)) node.name = some Status.DOWN →
        node.name ∈ downNames (statusesOf cfg (env 99)) := by
  have hgo := compute_wait_go_exhausts_counts cfg env hdown 100 0
  have hdiag := compute_wait_go_last_diag cfg env hdown 99 0
  refine ⟨?_, ?_, ?_, ?_⟩
  · simpa [compute_wait, hne] using hgo.1
  · simpa [compute_wait, hne] using hgo.2
  · simpa [compute_wait, hne] using hdiag
  · intro node _ hlk
    have hmem := lookupA_mem _ _ _ hlk
    exact List.mem_map.2 ⟨(node.name, Status.DOWN),
      List.mem_filter.2 ⟨hmem, by simp⟩, rfl⟩

/-- Witness for C7: one node, probe always failing. -/
theorem compute_wait_exhaustion_witness :
    (compute_wait ⟨none, [⟨"odz0", [TPiece.lit "10.0.0.1"], "aa:bb"⟩]⟩
        (fun _ => ⟨1, "", ""⟩)).1 = .error (.exited 1) ∧
    countProbes (compute_wait
        ⟨none, [⟨"odz0", [TPiece.lit "10.0.0.1"], "aa:bb"⟩]⟩
        (fun _ => ⟨1, "", ""⟩)).2 = 100 ∧
    Event.msg (waitAttemptDiag
        ⟨none, [⟨"odz0", [TPiece.lit "10.0.0.1"], "aa:bb"⟩]⟩
        ⟨1, "", ""⟩ 99) ∈
      (compute_wait ⟨none, [⟨"odz0", [TPiece.lit "10.0.0.1"], "aa:bb"⟩]⟩
        (fun _ => ⟨1, "", ""⟩)).2 := by
  have hconst : allUpStatuses
      ⟨none, [⟨"odz0", [TPiece.lit "10.0.0.1"], "aa:bb"⟩]⟩ ⟨1, "", ""⟩ =
        false := by decide
  have h := compute_wait_exhaustion
    ⟨none, [⟨"odz0", [TPiece.lit "10.0.0.1"], "aa:bb"⟩]⟩
    (fun _ => ⟨1, "", ""⟩) (by decide) (fun _ => hconst)
  exact ⟨h.1, h.2.1, h.2.2.1⟩

/-! ## Claim C2: full-bootstrap step sequence -/

/-- `compute_down` never produces a fatal outcome (its command failure is
caught), whatever the shutdown process did. -/
theorem compute_down_never_fatal (cfg : HardwareConfig) (remote : Bool)
    (proc : ProcResult) : (compute_down cfg remote proc).1 = .ok () := by
  rcases hrc : run_command cfg shutdownCmd remote true proc with e | p <;>
    simp [compute_down, hrc]

/-- Claim C2: for every profile with at least one compute node, the full
bootstrap probes compute status first; the shutdown step is taken exactly
when some probed status is UP (and its expected command failure never
aborts the run, so the build step is always reached); when the whole run
succeeds the attempted step sequence is exactly
[shutdown (when taken), build-image, configure-control, wake, wait,
configure-compute]; and in every run the attempted steps are a prefix of
that sequence (a fatal step failure aborts all remaining steps). -/
theorem cluster_configure_sequence (cfg : HardwareConfig) (hv : String)
    (remote : Bool) (env : ClusterEnv) (hne : cfg.compute_nodes ≠ []) :
    ((cluster_configure cfg hv remote env).1 = .ok () →
      (cluster_configure cfg hv remote env).2.2 =
        (if ((statusesOf cfg env.statusProc).map (fun p => p.2)).contains
            Status.UP then [Op.shutdown] else []) ++
          [Op.buildImage, Op.configureControl, Op.wake, Op.wait,
            Op.configureCompute]) ∧
    (cluster_configure cfg hv remote env).2.2 <+:
      ((if ((statusesOf cfg env.statusProc).map (fun p => p.2)).contains
          Status.UP then [Op.shutdown] else []) ++
        [Op.buildImage, Op.configureControl, Op.wake, Op.wait,
          Op.configureCompute]) ∧
    (Op.shutdown ∈ (cluster_configure cfg hv remote env).2.2 ↔
      ((statusesOf cfg env.statusProc).map (fun p => p.2)).contains
        Status.UP = true) ∧
    Op.buildImage ∈ (cluster_configure cfg hv remote env).2.2 := by
  have hcu : (if cfg.compute_nodes = [] then false
      else ((statusesOf cfg env.statusProc).map (fun p => p.2)).contains
        Status.UP) =
      ((statusesOf cfg env.statusProc).map (fun p => p.2)).contains
        Status.UP := if_neg hne
  have hops : ∃ tail,
      (cluster_configure cfg hv remote env).2.2 =
        (if ((statusesOf cfg env.statusProc).map (fun p => p.2)).contains
            Status.UP then [Op.shutdown] else []) ++ (Op.buildImage :: tail)
        ∧
      (Op.buildImage :: tail) <+:
        [Op.buildImage, Op.configureControl, Op.wake, Op.wait,
          Op.configureCompute] ∧
      ((cluster_configure cfg hv remote env).1 = .ok () →
        Op.buildImage :: tail =
          [Op.buildImage, Op.configureControl, Op.wake, Op.wait,
            Op.configureCompute]) := by
    rcases hb : control_build_image cfg hv remote env.buildProc
        env.chownProc with ⟨rb | rb, evb⟩
    · exact ⟨[], by
        simp [cluster_configure, hb]
        rw [hcu],
        ⟨_, rfl⟩, by simp [cluster_configure, hcu, hb]⟩
    rcases hc : control_configure cfg hv remote env.controlConfProc
        with ⟨rc | rc, evc⟩
    · exact ⟨[Op.configureControl], by
        simp [cluster_configure, hb, hc]
        rw [hcu],
        ⟨_, rfl⟩, by simp [cluster_configure, hcu, hb, hc]⟩
    rcases hu : compute_up cfg hv remote env.broadcastProc env.wolProc
        env.upWaitEnv with ⟨ru | ru, evu⟩
    · exact ⟨[Op.configureControl, Op.wake], by
        simp [cluster_configure, hb, hc, hu]
        rw [hcu],
        ⟨_, rfl⟩, by simp [cluster_configure, hcu, hb, hc, hu]⟩
    rcases hw : compute_wait cfg env.waitEnv with ⟨rw | rw, evw⟩
    · exact ⟨[Op.configureControl, Op.wake, Op.wait], by
        simp [cluster_configure, hb, hc, hu, hw]
        rw [hcu],
        ⟨_, rfl⟩, by simp [cluster_configure, hcu, hb, hc, hu, hw]⟩
    · exact ⟨[Op.configureControl, Op.wake, Op.wait, Op.configureCompute],
        by
          simp [cluster_configure, hb, hc, hu, hw]
          rw [hcu],
        ⟨[], by simp⟩, fun _ => rfl⟩
  obtain ⟨tail, heq, hpre, hfull⟩ := hops
  refine ⟨?_, ?_, ?_, ?_⟩
  · intro hok
    rw [heq, hfull hok]
  · rw [heq]
    obtain ⟨suf, hsuf⟩ := hpre
    exact ⟨suf, by rw [List.append_assoc, hsuf]⟩
  · rw [heq]
    constructor
    · intro hmem
      by_contra hup
      simp only [Bool.not_eq_true] at hup
      rw [if_neg (fun hh => Bool.false_ne_true (hup ▸ hh))] at hmem
      simp only [List.nil_append] at hmem
      have hsub := hpre.subset hmem
      have hnot : Op.shutdown ∉ [Op.buildImage, Op.configureControl,
          Op.wake, Op.wait, Op.configureCompute] := by decide
      exact hnot hsub
    · intro hup
      rw [if_pos hup]
      exact List.mem_append.2 (Or.inl (List.mem_cons_self _ _))
  · rw [heq]
    exact List.mem_append.2 (Or.inr (List.mem_cons_self _ _))

/-- Witness for C2: a one-node profile initially UP, every step
succeeding. -/
theorem cluster_configure_sequence_witness :
    ((cluster_configure ⟨none, [⟨"odz0", [TPiece.lit "10.0.0.1"],
        "aa:bb"⟩]⟩ "0.1" true
        ⟨⟨0, "odz0 | SUCCESS => ping", ""⟩, ⟨0, "", ""⟩, ⟨0, "", ""⟩,
         ⟨0, "", ""⟩, ⟨0, "", ""⟩, ⟨0, "    \"msg\": \"192.0.2.255\"", ""⟩,
         ⟨0, "", ""⟩, (fun _ => ⟨0, "odz0 | SUCCESS => ping", ""⟩),
         (fun _ => ⟨0, "odz0 | SUCCESS => ping", ""⟩), ⟨0, "", ""⟩⟩).1 =
        .ok () →
      (cluster_configure ⟨none, [⟨"odz0", [TPiece.lit "10.0.0.1"],
          "aa:bb"⟩]⟩ "0.1" true
          ⟨⟨0, "odz0 | SUCCESS => ping", ""⟩, ⟨0, "", ""⟩, ⟨0, "", ""⟩,
           ⟨0, "", ""⟩, ⟨0, "", ""⟩, ⟨0, "    \"msg\": \"192.0.2.255\"", ""⟩,
           ⟨0, "", ""⟩, (fun _ => ⟨0, "odz0 | SUCCESS => ping", ""⟩),
           (fun _ => ⟨0, "odz0 | SUCCESS => ping", ""⟩), ⟨0, "", ""⟩⟩).2.2 =
        (if ((statusesOf ⟨none, [⟨"odz0", [TPiece.lit "10.0.0.1"],
            "aa:bb"⟩]⟩ ⟨0, "odz0 | SUCCESS => ping", ""⟩).map
            (fun p => p.2)).contains Status.UP then [Op.shutdown] else [])
          ++ [Op.buildImage, Op.configureControl, Op.wake, Op.wait,
            Op.configureCompute]) ∧
    (cluster_configure ⟨none, [⟨"odz0", [TPiece.lit "10.0.0.1"],
        "aa:bb"⟩]⟩ "0.1" true
        ⟨⟨0, "odz0 | SUCCESS => ping", ""⟩, ⟨0, "", ""⟩, ⟨0, "", ""⟩,
         ⟨0, "", ""⟩, ⟨0, "", ""⟩, ⟨0, "    \"msg\": \"192.0.2.255\"", ""⟩,
         ⟨0, "", ""⟩, (fun _ => ⟨0, "odz0 | SUCCESS => ping", ""⟩),
         (fun _ => ⟨0, "odz0 | SUCCESS => ping", ""⟩), ⟨0, "", ""⟩⟩).1 =
      .ok () := by
  have h := cluster_configure_sequence
    ⟨none, [⟨"odz0", [TPiece.lit "10.0.0.1"], "aa:bb"⟩]⟩ "0.1" true
    ⟨⟨0, "odz0 | SUCCESS => ping", ""⟩, ⟨0, "", ""⟩, ⟨0, "", ""⟩,
     ⟨0, "", ""⟩, ⟨0, "", ""⟩, ⟨0, "    \"msg\": \"192.0.2.255\"", ""⟩,
     ⟨0, "", ""⟩, (fun _ => ⟨0, "odz0 | SUCCESS => ping", ""⟩),
     (fun _ => ⟨0, "odz0 | SUCCESS => ping", ""⟩), ⟨0, "", ""⟩⟩
    (by decide)
  exact ⟨h.1, by rfl⟩

end ODZ
